import Mathlib

/-!
Shallow embedding of the contacts-management backend
(repository `goit-pyweb-hw-14`) and verification of its
natural-language specification.

The embedding covers:
* the data model (`db/models.py`: `User`, `Contact`),
* the contact query layer (`repository/contacts.py`),
* the user repository (`repository/users.py`),
* the token service (`services/auth.py`),
* the fixed-window rate limiter (`services/rate_limiter.py`),
* the auth routes (`routes/auth.py`).

Conventions: SQLAlchemy sessions become explicit `List` states that are
threaded through the functions; `date.today()` and `datetime.utcnow()`
become an explicit `Nat`/`PyDate` parameter; Python exceptions become an
explicit `PyErr` error type in `Except`; a Python `dict` payload with
possibly-absent keys becomes a structure of `Option` fields, where `none`
models an absent key (so `payload["k"]` on an absent key is a `KeyError`)
and `some none` models a key whose value is `None`.
-/

set_option autoImplicit false

namespace HW14

/-- Python exceptions that can escape the modelled functions.
`httpError` is FastAPI's `HTTPException (status_code, detail)`;
`keyError`/`attributeError` are the built-in Python exceptions raised by
`payload['k']` on an absent key and by `obj.attr` on `None`. -/
inductive PyErr where
  | httpError (statusCode : Nat) (detail : String)
  | keyError (key : String)
  | attributeError (attr : String)
  deriving DecidableEq, Repr

/-- A calendar date as in Python's `datetime.date` (year, month, day). -/
structure PyDate where
  year : Nat
  month : Nat
  day : Nat
  deriving DecidableEq, Repr

/-- Gregorian leap-year rule, as used by Python's `datetime`. -/
def isLeapYear (y : Nat) : Bool :=
  (y % 4 == 0 && y % 100 != 0) || y % 400 == 0

/-- Number of days of month `m` of year `y` (Python `calendar.monthrange`). -/
def daysInMonth (y m : Nat) : Nat :=
  if m == 2 then (if isLeapYear y then 29 else 28)
  else if m == 4 || m == 6 || m == 9 || m == 11 then 30
  else 31

/-- `d + timedelta(days=7)` for a valid date `d`: since every month has at
least 28 days, adding 7 days rolls over at most into the next month. -/
def addDays7 (d : PyDate) : PyDate :=
  let dim := daysInMonth d.year d.month
  if d.day + 7 ≤ dim then ⟨d.year, d.month, d.day + 7⟩
  else if d.month == 12 then ⟨d.year + 1, 1, d.day + 7 - dim⟩
  else ⟨d.year, d.month + 1, d.day + 7 - dim⟩

/-- A JWT payload dict. `none` models an absent key, and for `sub`,
`some none` models `{"sub": None}`. `exp` and `iat` are UTC seconds. -/
structure Payload where
  sub : Option (Option String) := none
  scope : Option String := none
  exp : Option Nat := none
  iat : Option Nat := none
  deriving DecidableEq, Repr

/-- An encoded JWT string: either not a well-formed token at all, or the
signed encoding of a payload under a signing key. Distinct payloads encode
to distinct strings, which `DecidableEq` captures. -/
inductive Token where
  | malformed
  | signed (payload : Payload) (key : String)
  deriving DecidableEq, Repr

/-- `db/models.py` `User` row. `refreshToken` mirrors the nullable
`refresh_token` column; it stores the encoded refresh-token string,
represented by `Token`. -/
structure User where
  id : Nat
  username : String
  email : String
  password : String
  avatar : Option String := none
  refreshToken : Option Token := none
  confirmed : Bool := false
  deriving DecidableEq, Repr

/-- `db/models.py` `Contact` row. `user_id` is a nullable foreign key
(default `None`), hence `Option Nat`. -/
structure Contact where
  id : Nat
  first_name : String
  second_name : String
  email : String
  phone : String
  birthdate : PyDate
  additional_data : Option String := none
  user_id : Option Nat := none
  deriving DecidableEq, Repr

/-! ## Contact query layer (`repository/contacts.py`) -/

/-- Case-insensitive substring test on `List Char`: does `hay` contain
`needle` as a contiguous run? Used to model SQL `ilike '%needle%'`. -/
def containsSub (needle : List Char) : List Char → Bool
  | [] => needle.isEmpty
  | c :: t => needle.isPrefixOf (c :: t) || containsSub needle t

/-- `field ILIKE '%pat%'`: case-insensitive substring match, comparing
the lowercased character sequences. -/
def ilikeSub (field pat : String) : Bool :=
  containsSub (pat.data.map Char.toLower) (field.data.map Char.toLower)

/-- `get_contacts(db, user, skip, limit)` — owner-scoped pagination. -/
def get_contacts (db : List Contact) (user : User) (skip : Nat := 0)
    (limit : Nat := 100) : List Contact :=
  ((db.filter fun c => c.user_id == some user.id).drop skip).take limit

/-- `get_contact(db, contact_id, user)` — first row matching
`(id == contact_id AND user_id == user.id)`. -/
def get_contact (db : List Contact) (contact_id : Nat) (user : User) :
    Option Contact :=
  db.find? fun c => c.id == contact_id && c.user_id == some user.id

/-- `delete_contact(db, user, contact_id)`: removes the matching owned row
(if any) and returns it together with the new table state. -/
def delete_contact (db : List Contact) (user : User) (contact_id : Nat) :
    Option Contact × List Contact :=
  match db.find? fun c => c.id == contact_id && c.user_id == some user.id with
  | some c => (some c, db.filter fun x => !(x == c))
  | none => (none, db)

/-- One `if <filter>: query = query.filter(<field>.ilike(f"%{s}%"))` step of
`search_contacts`: Python truthiness skips both `None` and `""`. -/
def applyIlike (flt : Option String) (sel : Contact → String)
    (q : List Contact) : List Contact :=
  match flt with
  | some s => if s ≠ "" then q.filter (fun c => ilikeSub (sel c) s) else q
  | none => q

/-- `search_contacts(db, user, first_name, second_name, email)`. -/
def search_contacts (db : List Contact) (user : User)
    (first_name : Option String := none) (second_name : Option String := none)
    (email : Option String := none) : List Contact :=
  applyIlike email (fun c => c.email)
    (applyIlike second_name (fun c => c.second_name)
      (applyIlike first_name (fun c => c.first_name)
        (db.filter fun c => c.user_id == some user.id)))

/-- `get_upcoming_birthdays(db, user)` with `date.today()` made explicit.
First query: `user_id == user.id AND month(birthdate) == today.month AND
day(birthdate) >= today.day AND day(birthdate) <= (today+7).day`.
If the month changes, a second query is appended:
`month(birthdate) == (today+7).month AND day(birthdate) <= (today+7).day`
(this second query has no `user_id` filter, as in the source). -/
def get_upcoming_birthdays (db : List Contact) (user : User)
    (today : PyDate) : List Contact :=
  let seven_days_later := addDays7 today
  let firstQuery := db.filter fun c =>
    c.user_id == some user.id &&
    c.birthdate.month == today.month &&
    today.day ≤ c.birthdate.day &&
    c.birthdate.day ≤ seven_days_later.day
  if today.month ≠ seven_days_later.month then
    firstQuery ++ db.filter fun c =>
      c.birthdate.month == seven_days_later.month &&
      c.birthdate.day ≤ seven_days_later.day
  else
    firstQuery

/-! ## Token service (`services/auth.py`) -/

/-- Models the `SECRET_KEY` environment value shared process-wide. -/
def SECRET_KEY : String := "secret"

/-- `jose.jwt.decode(token, key, algorithms)` at UTC time `now`: fails
(`JWTError`, modelled as `none`) on a malformed token, a signature made
with a different key, or an expired `exp` claim; otherwise returns the
payload. -/
def jwtDecode (key : String) (now : Nat) : Token → Option Payload
  | .malformed => none
  | .signed p k =>
    if k ≠ key then none
    else match p.exp with
      | some e => if e ≤ now then none else some p
      | none => some p

/-- `Auth.create_access_token(data, expires_delta)` at time `now`
(`expires_delta` in seconds; default 30 minutes):
`to_encode = data.copy(); to_encode.update({'exp': expire, 'scope': 'access_token'})`. -/
def create_access_token (data : Payload) (now : Nat)
    (expires_delta : Option Nat := none) : Token :=
  let expire := match expires_delta with
    | some d => now + d
    | none => now + 30 * 60
  .signed { data with exp := some expire, scope := some "access_token" }
    SECRET_KEY

/-- `Auth.create_refresh_token(data, expires_delta)` at time `now`
(default 7 days), tagging `scope = 'refresh_token'`. -/
def create_refresh_token (data : Payload) (now : Nat)
    (expires_delta : Option Nat := none) : Token :=
  let expire := match expires_delta with
    | some d => now + d
    | none => now + 7 * 24 * 60 * 60
  .signed { data with exp := some expire, scope := some "refresh_token" }
    SECRET_KEY

/-- `Auth.create_email_token(data)` at time `now`: sets `iat` and a 7-day
`exp`, but — unlike the access/refresh constructors — no scope tag. -/
def create_email_token (data : Payload) (now : Nat) : Token :=
  .signed { data with iat := some now, exp := some (now + 7 * 24 * 60 * 60) }
    SECRET_KEY

/-- `Auth.decode_refresh_token(refresh_token)` at time `now`. The
`except JWTError` clause catches only decode failures; the scope-mismatch
`HTTPException` raised inside the `try` is not a `JWTError` and escapes;
`payload['scope']` / `payload['sub']` on an absent key raise `KeyError`,
which is also not caught. -/
def decode_refresh_token (refresh_token : Token) (now : Nat) :
    Except PyErr (Option String) :=
  match jwtDecode SECRET_KEY now refresh_token with
  | none => .error (.httpError 401 "Could not validate credentials")
  | some payload =>
    match payload.scope with
    | none => .error (.keyError "scope")
    | some sc =>
      if sc = "refresh_token" then
        match payload.sub with
        | none => .error (.keyError "sub")
        | some email => .ok email
      else .error (.httpError 401 "Invalid scope for token")

/-- `repository/users.py` `get_user_by_email(email, db)`: first row with
matching email, or `None`. -/
def get_user_by_email (email : String) (db : List User) : Option User :=
  db.find? fun u => u.email == email

/-- `Auth.get_current_user(token, db)` at time `now`. Decode failures are
caught and collapsed into the 401 `credentials_exception`; `KeyError` from
`payload['scope']` / `payload["sub"]` on an absent key is not caught. -/
def get_current_user (token : Token) (db : List User) (now : Nat) :
    Except PyErr User :=
  match jwtDecode SECRET_KEY now token with
  | none => .error (.httpError 401 "Could not validate credentials")
  | some payload =>
    match payload.scope with
    | none => .error (.keyError "scope")
    | some sc =>
      if sc = "access_token" then
        match payload.sub with
        | none => .error (.keyError "sub")
        | some none => .error (.httpError 401 "Could not validate credentials")
        | some (some email) =>
          match get_user_by_email email db with
          | none => .error (.httpError 401 "Could not validate credentials")
          | some user => .ok user
      else .error (.httpError 401 "Could not validate credentials")

/-- `Auth.get_email_from_token(token)` at time `now`: `payload.get("sub")`
(no `KeyError`: absent key yields `None`), no scope check; decode failures
become a 422. -/
def get_email_from_token (token : Token) (now : Nat) :
    Except PyErr (Option String) :=
  match jwtDecode SECRET_KEY now token with
  | none => .error (.httpError 422 "Invalid token for email verification")
  | some payload => .ok payload.sub.join

/-! ## Password hashing (`passlib` collaborator) -/

/-- `Auth.hash_password` via passlib's bcrypt context, modelled by its
contract: an injective one-way encoding of the plain password. -/
def hash_password (password : String) : String :=
  "bcrypt$" ++ password

/-- `Auth.verify_password(plain, hashed)`: true exactly when `hashed` is a
hash of `plain` (passlib's verification contract). -/
def verify_password (plain_password hashed_password : String) : Bool :=
  hashed_password == hash_password plain_password

/-! ## Rate limiter (`services/rate_limiter.py`) -/

/-- State of the Redis key `rate_limit:<user_id>` for one identity:
the stored counter value and its absolute expiry time, if any. -/
structure RLState where
  counter : Option Nat := none
  expireAt : Option Nat := none
  deriving DecidableEq, Repr

/-- `redis_client.get(key)` at time `now`: an expired key reads as absent. -/
def rlGet (s : RLState) (now : Nat) : Option Nat :=
  match s.counter, s.expireAt with
  | some v, some e => if now < e then some v else none
  | some v, none => some v
  | none, _ => none

/-- `RATE_LIMIT = 5` — maximum requests per window. -/
def RATE_LIMIT : Nat := 5

/-- `TIME_FRAME = 60` — window length in seconds. -/
def TIME_FRAME : Nat := 60

/-- `limit_rate(user_id)` at time `now` on the identity's key state:
returns `(allowed?, new state)`, where `allowed? = false` models the
HTTP 429 `HTTPException`. `set(key, 1, ex=TIME_FRAME)` installs a fresh
TTL; `incr(key)` increments without touching the TTL. -/
def limit_rate (s : RLState) (now : Nat) : Bool × RLState :=
  match rlGet s now with
  | none => (true, { counter := some 1, expireAt := some (now + TIME_FRAME) })
  | some current_count =>
    if current_count < RATE_LIMIT then
      (true, { s with counter := some (current_count + 1) })
    else
      (false, s)

/-! ## User repository mutations (`repository/users.py`) -/

/-- `update_token(user, token, db)`: sets `refresh_token` on the row with
`user`'s primary key and commits (the ORM identity is the primary key, so
the first — by uniqueness, only — row with that id is updated). -/
def update_token (uid : Nat) (token : Option Token) :
    List User → List User
  | [] => []
  | u :: rest =>
    if u.id == uid then { u with refreshToken := token } :: rest
    else u :: update_token uid token rest

/-- Helper for `confirmed_email`: set `confirmed = True` on the first row
with the given email (the row `get_user_by_email` returns). -/
def setConfirmed (email : String) : List User → List User
  | [] => []
  | u :: rest =>
    if u.email == email then { u with confirmed := true } :: rest
    else u :: setConfirmed email rest

/-- `confirmed_email(email, db)`: `user = get_user_by_email(...)`, then
`user.confirmed = True` — an `AttributeError` if no such user. -/
def confirmed_email (email : String) (db : List User) :
    Except PyErr (List User) :=
  match get_user_by_email email db with
  | none => .error (.attributeError "confirmed")
  | some _ => .ok (setConfirmed email db)

/-! ## Auth routes (`routes/auth.py`) -/

/-- An encoded token as stored/returned by the routes. Tokens travel as
strings in Python; `Token` stands for the encoded string, so the stored
`refresh_token` column and the `TokenModel` fields use it directly. -/
structure TokenModel where
  access_token : Token
  refresh_token : Token
  token_type : String := "bearer"
  deriving DecidableEq, Repr

/-- `login(db, form_data)` at time `now`: looks up the user by the form
username (an email), rejects an unknown email, an unconfirmed user, and a
wrong password with 401s, otherwise mints access/refresh tokens with
`{'sub': user.email}`, stores the refresh token, and returns the pair
together with the updated user table. -/
def login (db : List User) (username password : String) (now : Nat) :
    Except PyErr TokenModel × List User :=
  match get_user_by_email username db with
  | none => (.error (.httpError 401 "Invalid email"), db)
  | some user =>
    if !user.confirmed then
      (.error (.httpError 401 "Email not confirmed"), db)
    else if !verify_password password user.password then
      (.error (.httpError 401 "Invalid password"), db)
    else
      let access_token := create_access_token { sub := some (some user.email) } now
      let refresh_token := create_refresh_token { sub := some (some user.email) } now
      (.ok { access_token := access_token, refresh_token := refresh_token },
        update_token user.id (some refresh_token) db)

/-- `request_email(body, db)`: `user = get_user_by_email(body.email, db)`
is dereferenced as `user.confirmed` before any `None` check, so an
unknown email raises `AttributeError`; otherwise the route answers with
one of two messages (the background mail task is out of scope). -/
def request_email (email : String) (db : List User) : Except PyErr String :=
  match get_user_by_email email db with
  | none => .error (.attributeError "confirmed")
  | some user =>
    if user.confirmed then .ok "Your email is already confirmed"
    else .ok "Check your email for confirmation."

/-- `refresh_token(credentials, db)` at time `now`: decodes the presented
refresh token; looks up the subject (a `null` subject matches no row since
`users.email` is non-nullable, then `user.refresh_token` raises
`AttributeError`); if the stored token differs, clears it via
`update_token(user, None, db)` and then raises 401; otherwise mints and
stores a fresh token pair. Returns the outcome with the user table state. -/
def refresh_token_route (token : Token) (db : List User) (now : Nat) :
    Except PyErr TokenModel × List User :=
  match decode_refresh_token token now with
  | .error e => (.error e, db)
  | .ok none => (.error (.attributeError "refresh_token"), db)
  | .ok (some email) =>
    match get_user_by_email email db with
    | none => (.error (.attributeError "refresh_token"), db)
    | some user =>
      if user.refreshToken ≠ some token then
        (.error (.httpError 401 "Invalid refresh token"),
          update_token user.id none db)
      else
        let access_token := create_access_token { sub := some (some email) } now
        let new_refresh := create_refresh_token { sub := some (some email) } now
        (.ok { access_token := access_token, refresh_token := new_refresh },
          update_token user.id (some new_refresh) db)

/-- `confirmed_email` route (`GET /confirmed_email/{token}`) at time `now`:
extracts the subject email, 400s if no such user, reports an
already-confirmed user, else flips `confirmed` to true. Returns the
message with the updated user table. -/
def confirmed_email_route (token : Token) (db : List User) (now : Nat) :
    Except PyErr String × List User :=
  match get_email_from_token token now with
  | .error e => (.error e, db)
  | .ok none => (.error (.httpError 400 "Verification error"), db)
  | .ok (some email) =>
    match get_user_by_email email db with
    | none => (.error (.httpError 400 "Verification error"), db)
    | some u =>
      if u.confirmed then (.ok "Your email is already confirmed", db)
      else
        match confirmed_email email db with
        | .ok db2 => (.ok "Email confirmed", db2)
        | .error e => (.error e, db)

/-! ## Concrete fixtures -/

/-- Runs `limit_rate` for one identity over a sequence of call times,
returning the allow/reject outcome of each call. -/
def limit_rate_results (s : RLState) : List Nat → List Bool
  | [] => []
  | t :: ts =>
    let r := limit_rate s t
    r.1 :: limit_rate_results r.2 ts

/-- Fixture: user A (id 1). -/
def userA : User :=
  { id := 1, username := "alice", email := "alice@example.com",
    password := "bcrypt$a", confirmed := true }

/-- Fixture: user B (id 2). -/
def userB : User :=
  { id := 2, username := "bob", email := "bob@example.com",
    password := "bcrypt$b", confirmed := true }

/-- Fixture: contact of user A with birthdate month/day = (01, 29). -/
def contactJan29 : Contact :=
  { id := 11, first_name := "Ann", second_name := "Lee",
    email := "ann@example.com", phone := "1", birthdate := ⟨1990, 1, 29⟩,
    user_id := some 1 }

/-- Fixture: contact of user A with birthdate month/day = (01, 30). -/
def contactJan30 : Contact :=
  { id := 12, first_name := "Ben", second_name := "Kim",
    email := "ben@example.com", phone := "2", birthdate := ⟨1985, 1, 30⟩,
    user_id := some 1 }

/-- Fixture: contact of user A with birthdate month/day = (02, 02). -/
def contactFeb2 : Contact :=
  { id := 13, first_name := "Cal", second_name := "Roe",
    email := "cal@example.com", phone := "3", birthdate := ⟨1992, 2, 2⟩,
    user_id := some 1 }

/-- Fixture: contact of user A with birthdate month/day = (02, 05). -/
def contactFeb5 : Contact :=
  { id := 14, first_name := "Dee", second_name := "Poe",
    email := "dee@example.com", phone := "4", birthdate := ⟨1991, 2, 5⟩,
    user_id := some 1 }

/-- Fixture: contact of user A with birthdate month/day = (03, 01). -/
def contactMar1 : Contact :=
  { id := 15, first_name := "Eve", second_name := "Wu",
    email := "eve@example.com", phone := "5", birthdate := ⟨1993, 3, 1⟩,
    user_id := some 1 }

/-- Fixture: user A's contact table for the birthday-window example. -/
def birthdayDb : List Contact :=
  [contactJan29, contactJan30, contactFeb2, contactFeb5, contactMar1]

/-- A token whose payload (if any) carries a `scope` key and, when that
scope is `"access_token"`, also a `sub` key — i.e. a token on which
`get_current_user`'s dict lookups cannot raise `KeyError`. -/
def wellScoped : Token → Bool
  | .malformed => true
  | .signed p _ =>
    p.scope.isSome && (p.scope != some "access_token" || p.sub.isSome)

/-- Fixture: an unconfirmed registered user (id 3). -/
def userCarol : User :=
  { id := 3, username := "carol", email := "carol@example.com",
    password := hash_password "pw", confirmed := false }

/-- Fixture: a confirmed user (id 4) holding a stored refresh token
minted at time 0. -/
def userDan : User :=
  { id := 4, username := "dan", email := "dan@example.com",
    password := hash_password "dpw", confirmed := true,
    refreshToken :=
      some (create_refresh_token { sub := some (some "dan@example.com") } 0) }

end HW14

namespace HW14

/-! ## Theorems -/

/-- **C1** (code_bug). The claim says every contact-access operation,
`upcoming_birthdays` included, returns only contacts owned by the caller.
The code violates this: with today = 2024-01-28 (a month-rollover window),
user B's `get_upcoming_birthdays` call returns user A's contact
`contactFeb2`, because the rollover sub-query omits the `user_id` filter.
This theorem evaluates the code at that failing input. -/
theorem upcoming_birthdays_returns_other_owners_contact :
    get_upcoming_birthdays [contactFeb2] userB ⟨2024, 1, 28⟩ = [contactFeb2] ∧
    contactFeb2.user_id = some userA.id ∧ userA.id ≠ userB.id := by
  refine ⟨rfl, rfl, by decide⟩

/-- **C2** (code_bug). The claim says that with today = 2024-01-28 the
result includes "the first four" of the (01,29), (01,30), (02,02),
(02,05), (03,01) contacts, with the boundary that Feb 2 is included and
Feb 5 excluded — so on any reading at least (01,29), (01,30) and (02,02)
are included. The code instead returns only the (02,02) contact: in
the rollover case the first sub-query demands
`day(birthdate) ≤ (today+7).day = 4` together with `day(birthdate) ≥ 28`,
which is unsatisfiable, so the same-month contacts (01,29) and (01,30)
are dropped — contradicting both the claimed union construction
`[D, last-day-of-M]` and the claimed example outcome. -/
theorem upcoming_birthdays_drops_same_month_contacts :
    get_upcoming_birthdays birthdayDb userA ⟨2024, 1, 28⟩ = [contactFeb2] ∧
    contactJan29 ∉ get_upcoming_birthdays birthdayDb userA ⟨2024, 1, 28⟩ := by
  refine ⟨rfl, by decide⟩

/-- **C3** (confirmed). For an identity whose counter is initially absent,
the first 5 calls within the 60-second window succeed, the 6th within the
window is rejected with the 429 failure, and a call at or after the end of
the window succeeds again. -/
theorem rate_limiter_fixed_window (t1 t2 t3 t4 t5 t6 t7 : Nat)
    (h2 : t2 < t1 + TIME_FRAME) (h3 : t3 < t1 + TIME_FRAME)
    (h4 : t4 < t1 + TIME_FRAME) (h5 : t5 < t1 + TIME_FRAME)
    (h6 : t6 < t1 + TIME_FRAME) (h7 : t1 + TIME_FRAME ≤ t7) :
    limit_rate_results {} [t1, t2, t3, t4, t5, t6, t7] =
      [true, true, true, true, true, false, true] := by
  have hh7 : ¬ t7 < t1 + TIME_FRAME := Nat.not_lt.mpr h7
  simp [limit_rate_results, limit_rate, rlGet, RATE_LIMIT,
    h2, h3, h4, h5, h6, hh7]

/-- Witness for `rate_limiter_fixed_window` at concrete call times. -/
theorem rate_limiter_fixed_window_witness :
    limit_rate_results {} [0, 10, 20, 30, 40, 50, 60] =
      [true, true, true, true, true, false, true] :=
  rate_limiter_fixed_window 0 10 20 30 40 50 60
    (by decide) (by decide) (by decide) (by decide) (by decide) (by decide)

/-- **C8** (confirmed). The counter's TTL is written only when the counter
is created by the first request of a window: whenever the key still holds
a live value, `limit_rate` leaves `expireAt` unchanged (both on increment
and on rejection); only when the key reads as absent is a fresh expiry
`now + TIME_FRAME` installed. -/
theorem rate_limiter_expiry_anchored_to_first_request (s : RLState)
    (now : Nat) :
    (limit_rate s now).2.expireAt =
      if (rlGet s now).isSome then s.expireAt
      else some (now + TIME_FRAME) := by
  unfold limit_rate
  cases h : rlGet s now with
  | none => simp
  | some c => by_cases hc : c < RATE_LIMIT <;> simp [hc]

/-- **C4** (corrected), counterexample. The claim says `get_current_user`
fails with the single Unauthorized failure for *every* invalid access
token and that no other failure kind escapes for any input token. But a
validly-signed, unexpired token whose payload lacks the `scope` key — the
system's own email-confirmation tokens are exactly such tokens — makes
`payload['scope']` raise an uncaught `KeyError`, which is not the
Unauthorized failure. -/
theorem get_current_user_keyerror_on_email_token :
    get_current_user
        (create_email_token { sub := some (some "alice@example.com") } 0)
        [userA] 1 =
      .error (.keyError "scope") ∧
    PyErr.keyError "scope" ≠
      PyErr.httpError 401 "Could not validate credentials" := by
  refine ⟨rfl, by decide⟩

/-- Helper: a successful decode returns the signed token's own payload. -/
theorem jwtDecode_eq_some {key : String} {now : Nat} {t : Token}
    {p : Payload} (h : jwtDecode key now t = some p) :
    ∃ k, t = .signed p k := by
  cases t with
  | malformed => simp [jwtDecode] at h
  | signed q k =>
    refine ⟨k, ?_⟩
    simp only [jwtDecode] at h
    by_cases hk : k ≠ key
    · rw [if_pos hk] at h
      exact absurd h (by simp)
    · rw [if_neg hk] at h
      cases hexp : q.exp with
      | none =>
        rw [hexp] at h
        simp only [Option.some.injEq] at h
        rw [h]
      | some e =>
        rw [hexp] at h
        by_cases he : e ≤ now
        · simp [he] at h
        · simp [he] at h
          rw [h]

/-- Helper: `get_user_by_email` returns a row carrying the looked-up
email. -/
theorem get_user_by_email_email {email : String} {db : List User}
    {u : User} (h : get_user_by_email email db = some u) :
    u.email = email := by
  have := List.find?_some h
  simpa using this

/-- **C4** (corrected), amended claim: restricted to tokens whose decoded
payload carries a `scope` key (and a `sub` key when the scope is
`"access_token"`), `get_current_user` either fails with the single
Unauthorized `'Could not validate credentials'` failure — covering bad
signature, expiry, malformedness, wrong scope, null subject and unknown
subject — or returns the user whose email equals the subject claim. -/
theorem get_current_user_unauthorized_or_user (token : Token)
    (db : List User) (now : Nat) (h : wellScoped token = true) :
    get_current_user token db now =
        .error (.httpError 401 "Could not validate credentials") ∨
    ∃ u p, get_current_user token db now = .ok u ∧
      jwtDecode SECRET_KEY now token = some p ∧
      p.scope = some "access_token" ∧
      p.sub = some (some u.email) ∧
      get_user_by_email u.email db = some u := by
  unfold get_current_user
  split
  · left; rfl
  next payload heq =>
    split
    next hscNone =>
      obtain ⟨k, rfl⟩ := jwtDecode_eq_some heq
      simp [wellScoped, hscNone] at h
    next sc hsc =>
      split
      next hacc =>
        split
        next hsubNone =>
          obtain ⟨k, rfl⟩ := jwtDecode_eq_some heq
          simp [wellScoped, hsc, hacc, hsubNone] at h
        next hsubNull => left; rfl
        next email hsubEmail =>
          split
          next hfind => left; rfl
          next u hfind =>
            right
            have hem : u.email = email := get_user_by_email_email hfind
            subst hem
            exact ⟨u, payload, rfl, heq, by rw [hsc, hacc], hsubEmail, hfind⟩
      next hacc => left; rfl

/-- Witness for `get_current_user_unauthorized_or_user`: a freshly minted
access token for user A against a store containing user A. -/
theorem get_current_user_unauthorized_or_user_witness :
    get_current_user
        (create_access_token { sub := some (some "alice@example.com") } 0)
        [userA] 1 =
        .error (.httpError 401 "Could not validate credentials") ∨
    ∃ u p, get_current_user
        (create_access_token { sub := some (some "alice@example.com") } 0)
        [userA] 1 = .ok u ∧
      jwtDecode SECRET_KEY 1
        (create_access_token { sub := some (some "alice@example.com") } 0) =
        some p ∧
      p.scope = some "access_token" ∧
      p.sub = some (some u.email) ∧
      get_user_by_email u.email [userA] = some u :=
  get_current_user_unauthorized_or_user
    (create_access_token { sub := some (some "alice@example.com") } 0)
    [userA] 1 (by decide)

/-- **C5** (confirmed). Every token minted by `create_access_token`, while
its signature is valid and it is unexpired, makes `decode_refresh_token`
fail with the distinguishable scope-mismatch failure
`'Invalid scope for token'` — never the generic
`'Could not validate credentials'` — and in general
`decode_refresh_token` returns a subject only from a signed token whose
scope claim equals `"refresh_token"`. -/
theorem decode_refresh_token_rejects_access_scope (data : Payload)
    (now : Nat) (expires_delta : Option Nat) (now2 : Nat)
    (hfresh : now2 < now + expires_delta.getD (30 * 60)) :
    decode_refresh_token (create_access_token data now expires_delta) now2 =
        .error (.httpError 401 "Invalid scope for token") ∧
    ∀ (t : Token) (n : Nat) (e : Option String),
      decode_refresh_token t n = .ok e →
        ∃ p k, t = .signed p k ∧ p.scope = some "refresh_token" ∧
          p.sub = some e := by
  constructor
  · cases expires_delta with
    | none =>
      have h1 : ¬ (now + 1800 ≤ now2) :=
        Nat.not_le.mpr (by simpa using hfresh)
      unfold decode_refresh_token create_access_token jwtDecode
      simp [h1]
    | some d =>
      have h1 : ¬ (now + d ≤ now2) :=
        Nat.not_le.mpr (by simpa using hfresh)
      unfold decode_refresh_token create_access_token jwtDecode
      simp [h1]
  · intro t n e h
    unfold decode_refresh_token at h
    split at h
    · exact absurd h (by simp)
    next payload heq =>
      split at h
      next => exact absurd h (by simp)
      next sc hsc =>
        split at h
        next hrt =>
          split at h
          next => exact absurd h (by simp)
          next em hsub =>
            obtain ⟨k, rfl⟩ := jwtDecode_eq_some heq
            have he : em = e := by simpa using h
            exact ⟨payload, k, rfl, by rw [hsc, hrt], by rw [hsub, he]⟩
        next hrt => exact absurd h (by simp)

/-- Witness for `decode_refresh_token_rejects_access_scope` at a concrete
freshly minted access token. -/
theorem decode_refresh_token_rejects_access_scope_witness :
    decode_refresh_token
        (create_access_token { sub := some (some "alice@example.com") } 0
          none) 10 =
        .error (.httpError 401 "Invalid scope for token") ∧
    ∀ (t : Token) (n : Nat) (e : Option String),
      decode_refresh_token t n = .ok e →
        ∃ p k, t = .signed p k ∧ p.scope = some "refresh_token" ∧
          p.sub = some e :=
  decode_refresh_token_rejects_access_scope
    { sub := some (some "alice@example.com") } 0 none 10 (by decide)

/-- Helper: the empty needle is a substring of every haystack. -/
theorem containsSub_nil_true (hay : List Char) : containsSub [] hay = true := by
  cases hay <;> simp [containsSub, List.isPrefixOf]

/-- Helper: an empty pattern ilike-matches every field. -/
theorem ilikeSub_empty_pat (f : String) : ilikeSub f "" = true := by
  unfold ilikeSub
  exact containsSub_nil_true _

/-- Helper: membership through one optional ilike filter step. -/
theorem mem_applyIlike (flt : Option String) (sel : Contact → String)
    (q : List Contact) (c : Contact) :
    c ∈ applyIlike flt sel q ↔
      c ∈ q ∧ ∀ s, flt = some s → ilikeSub (sel c) s = true := by
  cases flt with
  | none => simp [applyIlike]
  | some s =>
    by_cases hs : s = ""
    · subst hs
      simp [applyIlike, ilikeSub_empty_pat]
    · simp [applyIlike, hs, List.mem_filter]

/-- **C7** (confirmed). `search_contacts` with no filters provided returns
the owner's full contact set unfiltered; in general a contact is in the
result exactly when it belongs to the table, is owned by the caller, and
satisfies every provided filter as a case-insensitive substring match —
the filters are ANDed and an absent filter imposes no constraint. -/
theorem search_contacts_spec :
    (∀ (db : List Contact) (u : User),
        search_contacts db u none none none =
          db.filter fun c => c.user_id == some u.id) ∧
    (∀ (db : List Contact) (u : User) (fn sn em : Option String)
        (c : Contact),
        c ∈ search_contacts db u fn sn em ↔
          c ∈ db ∧ c.user_id = some u.id ∧
          (∀ s, fn = some s → ilikeSub c.first_name s = true) ∧
          (∀ s, sn = some s → ilikeSub c.second_name s = true) ∧
          (∀ s, em = some s → ilikeSub c.email s = true)) := by
  constructor
  · intro db u
    rfl
  · intro db u fn sn em c
    simp only [search_contacts, mem_applyIlike, List.mem_filter,
      beq_iff_eq, and_assoc]

/-- Helper: confirming an email flips exactly the found user's flag, as
seen through a subsequent lookup of the same email. -/
theorem get_user_by_email_setConfirmed {email : String} {db : List User}
    {u : User} (hu : get_user_by_email email db = some u) :
    get_user_by_email email (setConfirmed email db) =
      some { u with confirmed := true } := by
  induction db with
  | nil => simp [get_user_by_email] at hu
  | cons v rest ih =>
    unfold get_user_by_email at hu
    by_cases hv : (v.email == email) = true
    · rw [List.find?_cons_of_pos (p := fun x : User => x.email == email) rest hv] at hu
      injection hu with hvu
      subst hvu
      unfold setConfirmed
      rw [if_pos hv]
      unfold get_user_by_email
      rw [List.find?_cons_of_pos]
      exact hv
    · rw [List.find?_cons_of_neg (p := fun x : User => x.email == email) rest hv] at hu
      unfold setConfirmed
      rw [if_neg hv]
      unfold get_user_by_email
      rw [List.find?_cons_of_neg (p := fun x : User => x.email == email) _ hv]
      exact ih hu

/-- **C6** (confirmed). For a registered but unconfirmed user, login with
the correct password fails with the 401 `'Email not confirmed'` failure;
redeeming the email-confirmation token through the confirmation route
succeeds and sets `confirmed` to true, after which the same login
succeeds and returns a token pair. -/
theorem login_only_after_confirmation (db : List User) (email pw : String)
    (u : User) (t0 t1 now now2 : Nat)
    (hu : get_user_by_email email db = some u)
    (hconf : u.confirmed = false)
    (hpw : u.password = hash_password pw)
    (hfresh : t1 < t0 + 7 * 24 * 60 * 60) :
    (login db email pw now).1 =
        .error (.httpError 401 "Email not confirmed") ∧
    confirmed_email_route (create_email_token { sub := some (some email) } t0)
        db t1 =
      (.ok "Email confirmed", setConfirmed email db) ∧
    get_user_by_email email (setConfirmed email db) =
      some { u with confirmed := true } ∧
    ∃ tm, (login (setConfirmed email db) email pw now2).1 = .ok tm := by
  refine ⟨?_, ?_, get_user_by_email_setConfirmed hu, ?_⟩
  · simp [login, hu, hconf]
  · have hnexp : ¬ (t0 + 7 * 24 * 60 * 60 ≤ t1) := Nat.not_le.mpr hfresh
    simp [confirmed_email_route, get_email_from_token, create_email_token,
      jwtDecode, hnexp, hu, hconf, confirmed_email]
  · have hu' := get_user_by_email_setConfirmed hu
    refine ⟨⟨create_access_token { sub := some (some u.email) } now2,
      create_refresh_token { sub := some (some u.email) } now2, "bearer"⟩, ?_⟩
    simp [login, hu', verify_password, hpw]

/-- Witness for `login_only_after_confirmation`: the unconfirmed fixture
user Carol with password `"pw"`, token minted at time 0 and redeemed at
time 1. -/
theorem login_only_after_confirmation_witness :
    (login [userCarol] "carol@example.com" "pw" 2).1 =
        .error (.httpError 401 "Email not confirmed") ∧
    confirmed_email_route
        (create_email_token { sub := some (some "carol@example.com") } 0)
        [userCarol] 1 =
      (.ok "Email confirmed", setConfirmed "carol@example.com" [userCarol]) ∧
    get_user_by_email "carol@example.com"
        (setConfirmed "carol@example.com" [userCarol]) =
      some { userCarol with confirmed := true } ∧
    ∃ tm, (login (setConfirmed "carol@example.com" [userCarol])
        "carol@example.com" "pw" 3).1 = .ok tm :=
  login_only_after_confirmation [userCarol] "carol@example.com" "pw"
    userCarol 0 1 2 3 (by rfl) (by rfl) (by rfl) (by decide)

/-- Helper: clearing/replacing the refresh token of the user found by an
email lookup is visible to a subsequent lookup of the same email, given
that primary keys are unique. -/
theorem get_user_by_email_update_token {email : String} {db : List User}
    {u : User} (tok : Option Token)
    (hnd : (db.map User.id).Nodup)
    (hu : get_user_by_email email db = some u) :
    get_user_by_email email (update_token u.id tok db) =
      some { u with refreshToken := tok } := by
  induction db with
  | nil => simp [get_user_by_email] at hu
  | cons v rest ih =>
    simp only [List.map_cons, List.nodup_cons] at hnd
    obtain ⟨hvid, hnd'⟩ := hnd
    unfold get_user_by_email at hu
    by_cases hv : (v.email == email) = true
    · rw [List.find?_cons_of_pos (p := fun x : User => x.email == email) rest hv] at hu
      injection hu with hvu
      subst hvu
      unfold update_token
      rw [if_pos (by simp)]
      unfold get_user_by_email
      rw [List.find?_cons_of_pos]
      exact hv
    · rw [List.find?_cons_of_neg (p := fun x : User => x.email == email) rest hv] at hu
      have hmem : u ∈ rest := List.mem_of_find?_eq_some hu
      have hne : ¬ ((v.id == u.id) = true) := by
        intro hbeq
        have hin : u.id ∈ rest.map User.id := List.mem_map_of_mem _ hmem
        rw [eq_of_beq hbeq] at hvid
        exact hvid hin
      unfold update_token
      rw [if_neg hne]
      unfold get_user_by_email
      rw [List.find?_cons_of_neg (p := fun x : User => x.email == email) _ hv]
      exact ih hnd' hu

/-- **C9** (confirmed). When the refresh route is presented with a
validly-decoding refresh token that differs from the one stored on the
subject user's row, the stored token is cleared (set to `None`) and the
401 `'Invalid refresh token'` failure is returned: the error path mutates
state, revoking the previously stored refresh token. -/
theorem refresh_route_mismatch_revokes (token : Token) (db : List User)
    (u : User) (email : String) (now : Nat)
    (hnd : (db.map User.id).Nodup)
    (hdec : decode_refresh_token token now = .ok (some email))
    (hu : get_user_by_email email db = some u)
    (hne : u.refreshToken ≠ some token) :
    refresh_token_route token db now =
      (.error (.httpError 401 "Invalid refresh token"),
        update_token u.id none db) ∧
    get_user_by_email email (update_token u.id none db) =
      some { u with refreshToken := none } := by
  constructor
  · simp [refresh_token_route, hdec, hu, hne]
  · exact get_user_by_email_update_token none hnd hu

/-- Witness for `refresh_route_mismatch_revokes`: user Dan stores a
refresh token minted at time 0 but presents one minted at time 5. -/
theorem refresh_route_mismatch_revokes_witness :
    refresh_token_route
        (create_refresh_token { sub := some (some "dan@example.com") } 5)
        [userDan] 10 =
      (.error (.httpError 401 "Invalid refresh token"),
        update_token userDan.id none [userDan]) ∧
    get_user_by_email "dan@example.com" (update_token userDan.id none [userDan]) =
      some { userDan with refreshToken := none } :=
  refresh_route_mismatch_revokes
    (create_refresh_token { sub := some (some "dan@example.com") } 5)
    [userDan] userDan "dan@example.com" 10
    (by decide) (by rfl) (by decide) (by decide)

/-- **C10** (confirmed). `request_email` dereferences `user.confirmed`
before any existence check, so for every email with no registered user it
raises the unhandled `AttributeError` instead of any failure status —
hence the later `if user:` guard can never be reached with an absent
user. -/
theorem request_email_attribute_error (email : String) (db : List User)
    (h : get_user_by_email email db = none) :
    request_email email db = .error (.attributeError "confirmed") := by
  simp [request_email, h]

/-- Witness for `request_email_attribute_error`: an empty user table. -/
theorem request_email_attribute_error_witness :
    request_email "ghost@example.com" [] =
      .error (.attributeError "confirmed") :=
  request_email_attribute_error "ghost@example.com" [] rfl

end HW14
